import Mathlib

/-!
Shallow embedding of the ISPT teacher-evaluation web application
(`app.js`: Express + SQLite).  The parts modelled here are the survey
submission route (`POST /submit`), the aggregated statistics API
(`GET /api/stats`), the dashboard API (`GET /api/dashboard`), the
admin-page client aggregation, the PDF trends section, the auth gate
(`requireAuth`) with the import route's 403 branch, and the backup
download route.  SQL three-valued logic for the `COALESCE(?, col) = col`
filter trick is modelled explicitly, since it decides several claims.
-/

namespace Avalia

/-- A row of the `discipline` table: `id, course_id, name`. -/
structure Discipline where
  id : Nat
  course_id : Nat
  deriving Repr, DecidableEq

/-- A row of the `teaching` table.  `school_year_id` and `class_group_id`
are nullable columns, modelled as `Option`. -/
structure Teaching where
  id : Nat
  teacher_id : Nat
  discipline_id : Nat
  semester_id : Nat
  school_year_id : Option Nat
  class_group_id : Option Nat
  deriving Repr, DecidableEq

/-- A row of the `survey_question` table (the `code`/`text` columns are
irrelevant to the claims except as labels; `area` drives area grouping). -/
structure Question where
  id : Nat
  code : String
  area : String
  deriving Repr, DecidableEq

/-- A row of the `survey_response` table. -/
structure Response where
  id : Nat
  teaching_id : Nat
  comment : Option String
  deriving Repr, DecidableEq

/-- A row of the `survey_answer` table; the schema CHECKs `value IN (0,1,2)`. -/
structure Answer where
  response_id : Nat
  question_id : Nat
  value : Int
  deriving Repr, DecidableEq

/-- The database state relevant to the claims. -/
structure Db where
  disciplines : List Discipline
  teachings : List Teaching
  questions : List Question
  responses : List Response
  answers : List Answer
  deriving Repr

/-- The six optional query-string filters of the aggregation endpoints
(`course_id, semester_id, discipline_id, teacher_id, school_year_id,
class_group_id`); `none` is an absent/empty parameter (`x || null`). -/
structure Filters where
  course_id : Option Nat
  semester_id : Option Nat
  discipline_id : Option Nat
  teacher_id : Option Nat
  school_year_id : Option Nat
  class_group_id : Option Nat
  deriving Repr, DecidableEq

/-- All six filters absent. -/
def Filters.unset : Filters := ⟨none, none, none, none, none, none⟩

/-- SQL `COALESCE(?, col) = col` for a NOT NULL column `col`: with the
parameter bound to NULL it collapses to `col = col`, which is true. -/
def sqlCoalesceEqNN (f : Option Nat) (col : Nat) : Bool :=
  match f with
  | some v => v == col
  | none => true

/-- SQL `COALESCE(?, col) = col` for a nullable column, under SQL
three-valued logic: any `=` comparison with NULL yields NULL, which a
WHERE clause treats as not-true. -/
def sqlCoalesceEq (f : Option Nat) (col : Option Nat) : Bool :=
  match f, col with
  | some v, some c => v == c
  | some _, none => false
  | none, some _ => true
  | none, none => false

def findTeaching (db : Db) (tid : Nat) : Option Teaching :=
  db.teachings.find? (fun t => t.id == tid)

def findDiscipline (db : Db) (did : Nat) : Option Discipline :=
  db.disciplines.find? (fun d => d.id == did)

def findQuestion (db : Db) (qid : Nat) : Option Question :=
  db.questions.find? (fun q => q.id == qid)

def findResponse (db : Db) (rid : Nat) : Option Response :=
  db.responses.find? (fun r => r.id == rid)

/-- Whether a `survey_response` row survives the shared WHERE clause of
the aggregation queries (`JOIN teaching ... JOIN discipline ...` plus the
six `COALESCE` predicates). -/
def rowMatches (db : Db) (F : Filters) (r : Response) : Bool :=
  match findTeaching db r.teaching_id with
  | none => false
  | some t =>
    match findDiscipline db t.discipline_id with
    | none => false
    | some d =>
      sqlCoalesceEqNN F.course_id d.course_id &&
      sqlCoalesceEqNN F.semester_id t.semester_id &&
      sqlCoalesceEqNN F.discipline_id t.discipline_id &&
      sqlCoalesceEqNN F.teacher_id t.teacher_id &&
      sqlCoalesceEq F.school_year_id t.school_year_id &&
      sqlCoalesceEq F.class_group_id t.class_group_id

/-- The `survey_answer` rows that survive the joins and filters
(`survey_answer JOIN survey_response JOIN teaching JOIN discipline`). -/
def matchingAnswers (db : Db) (F : Filters) : List Answer :=
  db.answers.filter (fun a =>
    match findResponse db a.response_id with
    | some r => rowMatches db F r
    | none => false)

/-- Count of matching responses (`COUNT(*)` over the filtered
`survey_response` join, as in `/api/dashboard`'s total). -/
def matchingResponseCount (db : Db) (F : Filters) : Nat :=
  (db.responses.filter (fun r => rowMatches db F r)).length

/-- `AVG(qa.value)` over matching answers of one question; `none` when the
question has no matching answer (SQL emits no group for it). -/
def questionAvg (db : Db) (F : Filters) (qid : Nat) : Option ℚ :=
  let vs := ((matchingAnswers db F).filter (fun a => a.question_id == qid)).map
    (fun a => (a.value : ℚ))
  if vs.length = 0 then none else some (vs.sum / vs.length)

/-- The distinct question ids present among matching answers, in ascending
order (the `GROUP BY qa.question_id ORDER BY qa.question_id`). -/
def statsQids (db : Db) (F : Filters) : List Nat :=
  (((matchingAnswers db F).map (fun a => a.question_id)).dedup).mergeSort
    (fun a b => a ≤ b)

/-- The payload of `GET /api/stats`: it carries `rows` (per-question
averages), `questions` and `comments` — and nothing else; in particular no
`insufficient`, `n` or `threshold` field. -/
structure StatsPayload where
  rows : List (Nat × ℚ)
  questions : List Question
  comments : List (Option String)
  deriving Repr, DecidableEq

/-- `GET /api/stats`: runs the grouped-average query and the comments
query and returns them unconditionally; there is no response-count query
and no anonymity-threshold branch in the route. -/
def apiStats (db : Db) (F : Filters) : StatsPayload :=
  { rows := (statsQids db F).filterMap (fun qid =>
      (questionAvg db F qid).map (fun v => (qid, v)))
    questions := db.questions
    comments := (db.responses.filter (fun r =>
      rowMatches db F r && !(r.comment.getD "" == ""))).map (fun r => r.comment) }

/-- The anonymity threshold the UI text displays: `ANON_THRESHOLD` is
never defined in the program, so the defensive
`typeof ANON_THRESHOLD !== 'undefined' ? ANON_THRESHOLD : 5` always
yields 5. -/
def anonThreshold : Nat := 5

/-! ## POST /submit -/

/-- The request body of `POST /submit`.  Each field is `none` when the
form value is absent or empty (both are falsy under `x || null` and under
the required-field check).  `answers` maps a question id (the `q_<id>`
keys) to the result of `Number(...)` on the submitted string; a key that
is absent or coerces to NaN or a non-integer is not in the list since the
route treats all of those identically (skips them). -/
structure SubmitBody where
  course_id : Option Nat
  semester_id : Option Nat
  school_year_id : Option Nat
  discipline_id : Option Nat
  teacher_id : Option Nat
  class_group_id : Option Nat
  comment : Option String
  answers : List (Nat × Int)
  deriving Repr

/-- The dimensional tuple keying a teaching row. -/
structure TTuple where
  teacher_id : Nat
  discipline_id : Nat
  semester_id : Nat
  school_year_id : Option Nat
  class_group_id : Option Nat
  deriving Repr, DecidableEq

/-- The lookup predicate of the submit route:
`teacher_id=? AND discipline_id=? AND semester_id=? AND
(school_year_id IS ? OR school_year_id = ?) AND
(class_group_id IS ? OR class_group_id = ?)`.  SQLite `IS` is
NULL-tolerant equality, so the nullable columns compare as `Option`
equality (the `OR ... = ?` disjunct adds nothing). -/
def teachingHasTuple (tu : TTuple) (t : Teaching) : Bool :=
  t.teacher_id == tu.teacher_id && t.discipline_id == tu.discipline_id &&
  t.semester_id == tu.semester_id && t.school_year_id == tu.school_year_id &&
  t.class_group_id == tu.class_group_id

/-- A fresh AUTOINCREMENT rowid for `teaching`. -/
def freshTeachingId (ts : List Teaching) : Nat :=
  ts.foldr (fun t m => max t.id m) 0 + 1

/-- The teaching row the submit route INSERTs when the lookup finds
nothing: the tuple's values with a fresh id. -/
def newTeaching (ts : List Teaching) (tu : TTuple) : Teaching :=
  { id := freshTeachingId ts, teacher_id := tu.teacher_id,
    discipline_id := tu.discipline_id, semester_id := tu.semester_id,
    school_year_id := tu.school_year_id,
    class_group_id := tu.class_group_id }

/-- The submit route's teaching lookup-or-create: SELECT by the tuple;
INSERT a new row only when no row matched. -/
def lookupOrCreateTeaching (ts : List Teaching) (tu : TTuple) :
    Nat × List Teaching :=
  match ts.find? (teachingHasTuple tu) with
  | some t => (t.id, ts)
  | none => (freshTeachingId ts, ts ++ [newTeaching ts tu])

/-- A fresh AUTOINCREMENT rowid for `survey_response`. -/
def freshResponseId (db : Db) : Nat :=
  db.responses.foldr (fun r m => max r.id m) 0 + 1

/-- `[0,1,2].includes(val)`. -/
def validValue (v : Int) : Bool := v == 0 || v == 1 || v == 2

/-- `Number(answers['q_' + q.id])`, as an option. -/
def lookupAnswerVal (answers : List (Nat × Int)) (qid : Nat) : Option Int :=
  (answers.find? (fun p => p.1 == qid)).map (fun p => p.2)

/-- The `survey_answer` row the submit route inserts for question `q`, if
any: present exactly when the coerced submitted value is in {0,1,2}
(`if (![0,1,2].includes(val)) return; insAns.run(responseId, q.id, val)`). -/
def mkAnswer (rid : Nat) (answers : List (Nat × Int)) (q : Question) :
    Option Answer :=
  match lookupAnswerVal answers q.id with
  | some v => if validValue v then
      some { response_id := rid, question_id := q.id, value := v }
    else none
  | none => none

/-- The `survey_response` row a successful submission inserts. -/
def newResponse (db : Db) (b : SubmitBody) (tu : TTuple) : Response :=
  { id := freshResponseId db
    teaching_id := (lookupOrCreateTeaching db.teachings tu).1
    comment := b.comment.bind (fun s => if s == "" then none else some s) }

/-- The write part of `POST /submit`, once the required-field check has
passed: teaching lookup-or-create, one `survey_response` insert (the
`comment || null` coercion turns an empty comment into NULL), and one
`survey_answer` insert per question whose coerced value is in {0,1,2}. -/
def applySubmit (db : Db) (b : SubmitBody) (sid did tid : Nat) : Db :=
  let tu : TTuple := ⟨tid, did, sid, b.school_year_id, b.class_group_id⟩
  { db with
    teachings := (lookupOrCreateTeaching db.teachings tu).2
    responses := db.responses ++ [newResponse db b tu]
    answers := db.answers ++
      db.questions.filterMap (mkAnswer (freshResponseId db) b.answers) }

/-- `POST /submit`.  `none` models the HTTP 400 `'Dados em falta.'`
response (required fields `course_id, semester_id, discipline_id,
teacher_id`; the school year and class group are not checked). -/
def submit (db : Db) (b : SubmitBody) : Option Db :=
  match b.course_id, b.semester_id, b.discipline_id, b.teacher_id with
  | some _, some sid, some did, some tid =>
    some (applySubmit db b sid did tid)
  | _, _, _, _ => none

/-! ## Per-area averages: admin page client vs dashboard API -/

/-- The admin page's `round2`: `Math.round(x*100)/100`
(`Math.round y = ⌊y + 1/2⌋` coincides with Mathlib's `round` on ℚ). -/
def round2 (x : ℚ) : ℚ := (round (x * 100) : ℤ) / 100

/-- The admin client's per-question chart value: the `/api/stats` row for
the question (present exactly when the question has a matching answer),
rounded to 2 decimals; `null` otherwise. -/
def adminQuestionVal (db : Db) (F : Filters) (q : Question) : Option ℚ :=
  (questionAvg db F q.id).map round2

/-- One step of the admin client's `areaAgg` object update:
`(areaAgg[q.area] ||= {sum:0,n:0}).sum += v; areaAgg[q.area].n++`,
on an association list keyed by area. -/
def areaAggUpdate (m : List (String × ℚ × Nat)) (area : String) (v : ℚ) :
    List (String × ℚ × Nat) :=
  match m with
  | [] => [(area, v, 1)]
  | (a, s, n) :: rest =>
    if a == area then (a, s + v, n + 1) :: rest
    else (a, s, n) :: areaAggUpdate rest area v

/-- The admin client's `areaAgg` accumulator after the `forEach` over
`data.questions` (questions with a `null` value are skipped). -/
def adminAreaAgg (db : Db) (F : Filters) : List (String × ℚ × Nat) :=
  db.questions.foldl (fun m q =>
    match adminQuestionVal db F q with
    | none => m
    | some v => areaAggUpdate m q.area v) []

/-- The admin page's per-area average `areaAgg[a].sum / areaAgg[a].n`. -/
def adminAreaAvg (db : Db) (F : Filters) (area : String) : Option ℚ :=
  ((adminAreaAgg db F).find? (fun p => p.1 == area)).map
    (fun p => p.2.1 / p.2.2)

/-- The rounded per-question averages contributed to `area` by the
questions of `qs`, in order. -/
def areaContribs (db : Db) (F : Filters) (qs : List Question)
    (area : String) : List ℚ :=
  qs.filterMap (fun q =>
    if q.area == area then adminQuestionVal db F q else none)

/-- The spec's wording for the per-area average: the unweighted mean of
the per-question values of the questions in that area (each question
counted once, whatever its number of answers). -/
def areaMeanOfQuestionAvgs (db : Db) (F : Filters) (area : String) :
    Option ℚ :=
  if (areaContribs db F db.questions area).length = 0 then none
  else some ((areaContribs db F db.questions area).sum /
    (areaContribs db F db.questions area).length)

/-- Combining an accumulator entry with further contributions (the
specification of what the admin client's fold does to one area). -/
def combineAgg (o : Option (ℚ × Nat)) (vs : List ℚ) : Option (ℚ × Nat) :=
  match o with
  | some (s, n) => some (s + vs.sum, n + vs.length)
  | none => if vs.length = 0 then none else some (vs.sum, vs.length)

/-- `GET /api/dashboard`'s per-area average:
`SELECT q.area, AVG(a.value) ... GROUP BY q.area` — the mean of the raw
answer values pooled across the area. -/
def dashboardAreaAvg (db : Db) (F : Filters) (area : String) : Option ℚ :=
  let vs := ((matchingAnswers db F).filter (fun a =>
    match findQuestion db a.question_id with
    | some q => q.area == area
    | none => false)).map (fun a => (a.value : ℚ))
  if vs.length = 0 then none else some (vs.sum / vs.length)

/-! ## PDF export: renderDynamicTrends -/

/-- One entry of the trends computation: a question's code and mean. -/
structure TrendItem where
  code : String
  avg : ℚ
  deriving Repr, DecidableEq

/-- The `items` array of `renderDynamicTrends`: the questions that have at
least one matching answer, with their mean (`questionAvg` is `some`
exactly when `total > 0`). -/
def pdfItems (db : Db) (F : Filters) : List TrendItem :=
  db.questions.filterMap (fun q =>
    (questionAvg db F q.id).map (fun v => { code := q.code, avg := v }))

/-- `[...items].sort((a,b) => b.avg - a.avg)` (stable, descending). -/
def trendsDesc (items : List TrendItem) : List TrendItem :=
  items.mergeSort (fun a b => b.avg ≤ a.avg)

/-- `[...items].sort((a,b) => a.avg - b.avg)` (stable, ascending). -/
def trendsAsc (items : List TrendItem) : List TrendItem :=
  items.mergeSort (fun a b => a.avg ≤ b.avg)

/-- `strengths`: the items with mean ≥ 1.5 (`STRONG_TH`), in descending
order; if none, the top 3 by mean (`desc.slice(0, TOPK)`). -/
def strengths (items : List TrendItem) : List TrendItem :=
  if ((trendsDesc items).filter (fun i => (3/2 : ℚ) ≤ i.avg)).isEmpty then
    (trendsDesc items).take 3
  else (trendsDesc items).filter (fun i => (3/2 : ℚ) ≤ i.avg)

/-- `weaknesses`: the items with mean < 1.0 (`WEAK_TH`), in ascending
order; if none, the bottom 3 by mean (`asc.slice(0, TOPK)`). -/
def weaknesses (items : List TrendItem) : List TrendItem :=
  if ((trendsAsc items).filter (fun i => i.avg < 1)).isEmpty then
    (trendsAsc items).take 3
  else (trendsAsc items).filter (fun i => i.avg < 1)

/-! ## requireAuth, POST /importar, GET /backup/download -/

/-- The request cookies relevant to authorization. -/
structure Cookies where
  ispt_admin : Option String
  role : Option String
  deriving Repr, DecidableEq

/-- The observable outcome of the import route's authorization layers. -/
inductive RouteResult where
  | redirectLogin
  | forbidden
  | proceed
  deriving Repr, DecidableEq

/-- `requireAuth`: passes exactly when `req.cookies.ispt_admin === '1'`;
otherwise `res.redirect('/login')`. -/
def requireAuthOk (c : Cookies) : Bool := c.ispt_admin == some "1"

/-- `POST /importar` up to its authorization decisions: the route is
mounted behind `requireAuth`; inside, it returns 403 when
`role !== 'admin' && req.cookies?.ispt_admin !== '1'`, else proceeds with
the import. -/
def importRoute (c : Cookies) : RouteResult :=
  if requireAuthOk c then
    if !(c.role == some "admin") && !(c.ispt_admin == some "1") then
      .forbidden
    else .proceed
  else .redirectLogin

/-- One discipline, one fully-populated teaching, one question, one
response answering it with 2. -/
def db1 : Db :=
  { disciplines := [{ id := 1, course_id := 1 }]
    teachings := [{ id := 1, teacher_id := 1, discipline_id := 1,
                    semester_id := 1, school_year_id := some 1,
                    class_group_id := some 1 }]
    questions := [{ id := 1, code := "Q1", area := "Preparação" }]
    responses := [{ id := 1, teaching_id := 1, comment := none }]
    answers := [{ response_id := 1, question_id := 1, value := 2 }] }

/-- Two questions of the same area with unequal answer counts: Q1 has two
answers of value 2, Q2 one answer of value 0. -/
def db2 : Db :=
  { disciplines := [{ id := 1, course_id := 1 }]
    teachings := [{ id := 1, teacher_id := 1, discipline_id := 1,
                    semester_id := 1, school_year_id := some 1,
                    class_group_id := some 1 }]
    questions := [{ id := 1, code := "Q1", area := "A" },
                  { id := 2, code := "Q2", area := "A" }]
    responses := [{ id := 1, teaching_id := 1, comment := none },
                  { id := 2, teaching_id := 1, comment := none }]
    answers := [{ response_id := 1, question_id := 1, value := 2 },
                { response_id := 2, question_id := 1, value := 2 },
                { response_id := 1, question_id := 2, value := 0 }] }

/-- Like `db1`, but the teaching row has a NULL school year (as created by
a submission without a school year). -/
def db3 : Db :=
  { disciplines := [{ id := 1, course_id := 1 }]
    teachings := [{ id := 1, teacher_id := 1, discipline_id := 1,
                    semester_id := 1, school_year_id := none,
                    class_group_id := some 1 }]
    questions := [{ id := 1, code := "Q1", area := "Preparação" }]
    responses := [{ id := 1, teaching_id := 1, comment := none }]
    answers := [{ response_id := 1, question_id := 1, value := 2 }] }

/-- A concrete two-question database with no responses yet. -/
def dbTwoQ : Db :=
  { disciplines := [{ id := 1, course_id := 1 }]
    teachings := []
    questions := [{ id := 1, code := "Q1", area := "A" },
                  { id := 2, code := "Q2", area := "B" }]
    responses := []
    answers := [] }

/-- A concrete submission answering Q1 with the valid value 2 and Q2 with
the out-of-range value 5. -/
def bodyTwoQ : SubmitBody :=
  { course_id := some 1, semester_id := some 1, school_year_id := some 1,
    discipline_id := some 1, teacher_id := some 1, class_group_id := none,
    comment := none, answers := [(1, 2), (2, 5)] }

/-- A concrete submission body with every field filled in except the
school year. -/
def bodyNoYear : SubmitBody :=
  { course_id := some 1, semester_id := some 1, school_year_id := none,
    discipline_id := some 1, teacher_id := some 1, class_group_id := some 1,
    comment := none, answers := [(1, 2)] }

/-- `COUNT(*)` of the teaching rows carrying a given dimensional tuple. -/
def countTuple (ts : List Teaching) (tu : TTuple) : Nat :=
  (ts.filter (teachingHasTuple tu)).length

/-! ## Claim theorems -/

/-- C1: the spec requires the stats API to withhold numeric aggregates and
return an insufficient-sample indicator (with count and threshold) when
the matching response count is below the threshold (default 5).  The
route has no such gate: here only 1 response matches (1 < 5), yet the
numeric per-question averages are returned.  (The admin page's client
code expects `insufficient`/`n`/`threshold` fields that the route never
produces, and the public consent text promises n≥5 gating.) -/
theorem c1_stats_route_has_no_anonymity_gate :
    matchingResponseCount db1 Filters.unset = 1 ∧
    matchingResponseCount db1 Filters.unset < anonThreshold ∧
    (apiStats db1 Filters.unset).rows = [(1, 2)] := by
  refine ⟨by decide, by decide, ?_⟩
  simp [apiStats, statsQids, questionAvg, matchingAnswers, findResponse,
    rowMatches, findTeaching, findDiscipline, sqlCoalesceEqNN, sqlCoalesceEq,
    db1, Filters.unset, List.filter, List.find?]
/-- C2 counterexample: in `db2`, area "A" holds Q1 (answers 2, 2) and Q2
(answer 0).  The unweighted mean of the per-question averages is
(2+0)/2 = 1 (which is what the admin stats page computes), but the
dashboard API's per-area average — also an aggregation query — pools the
raw answers: (2+2+0)/3 = 4/3 ≠ 1.  So the claim does not hold of every
aggregation query. -/
theorem c2_counterexample_dashboard_pools_raw_answers :
    dashboardAreaAvg db2 Filters.unset "A" = some (4 / 3) ∧
    areaMeanOfQuestionAvgs db2 Filters.unset "A" = some 1 ∧
    adminAreaAvg db2 Filters.unset "A" = some 1 ∧
    ((4 : ℚ) / 3) ≠ 1 := by
  refine ⟨?_, ?_, ?_, by norm_num⟩
  · simp [dashboardAreaAvg, matchingAnswers, findResponse, findQuestion,
      rowMatches, findTeaching, findDiscipline, sqlCoalesceEqNN,
      sqlCoalesceEq, db2, Filters.unset, List.filter, List.find?]
    norm_num
  · simp [areaMeanOfQuestionAvgs, areaContribs, adminQuestionVal,
      questionAvg, round2, matchingAnswers, findResponse, rowMatches,
      findTeaching, findDiscipline, sqlCoalesceEqNN, sqlCoalesceEq, db2,
      Filters.unset, List.filter, List.find?]
    norm_num
  · simp [adminAreaAvg, adminAreaAgg, areaAggUpdate, adminQuestionVal,
      questionAvg, round2, matchingAnswers, findResponse, rowMatches,
      findTeaching, findDiscipline, sqlCoalesceEqNN, sqlCoalesceEq, db2,
      Filters.unset, List.filter, List.find?]
    norm_num

/-- Combining with no contributions changes nothing. -/
theorem combineAgg_nil (o : Option (ℚ × Nat)) : combineAgg o [] = o := by
  rcases o with _ | ⟨s, n⟩ <;> simp [combineAgg]

/-- Strings that differ compare `==` to `false`. -/
theorem str_beq_false {a b : String} (h : ¬a = b) : (a == b) = false := by
  rcases hb : a == b with _ | _
  · rfl
  · exact absurd (by simpa using hb) h

/-- How one `areaAgg` object update affects the entry looked up for a
given key. -/
theorem find?_areaAggUpdate (m : List (String × ℚ × Nat)) (a key : String)
    (v : ℚ) :
    ((areaAggUpdate m a v).find? (fun p => p.1 == key)).map (fun p => p.2) =
      if key = a then
        match (m.find? (fun p => p.1 == key)).map (fun p => p.2) with
        | some (s, n) => some (s + v, n + 1)
        | none => some (v, 1)
      else (m.find? (fun p => p.1 == key)).map (fun p => p.2) := by
  induction m with
  | nil =>
    by_cases h : key = a
    · subst h
      simp [areaAggUpdate, List.find?]
    · have hb : (a == key) = false := str_beq_false (fun he => h he.symm)
      simp [areaAggUpdate, List.find?, hb, h]
  | cons hd tl ih =>
    obtain ⟨a', s, n⟩ := hd
    by_cases h1 : a' = a
    · subst h1
      by_cases h2 : key = a'
      · subst h2
        simp [areaAggUpdate, List.find?]
      · have hb : (a' == key) = false := str_beq_false (fun he => h2 he.symm)
        simp [areaAggUpdate, List.find?, hb, h2]
    · have hne : (a' == a) = false := str_beq_false h1
      by_cases h2 : key = a'
      · subst h2
        simp [areaAggUpdate, hne, List.find?, h1]
      · have hb : (a' == key) = false := str_beq_false (fun he => h2 he.symm)
        simp only [areaAggUpdate, hne, Bool.false_eq_true, if_false,
          List.find?, hb]
        exact ih

/-- The admin client's whole `forEach` fold, related to the list of
per-question contributions of one area. -/
theorem foldl_adminAreaAgg (db : Db) (F : Filters) (qs : List Question)
    (m : List (String × ℚ × Nat)) (area : String) :
    ((qs.foldl (fun m q =>
        match adminQuestionVal db F q with
        | none => m
        | some v => areaAggUpdate m q.area v) m).find?
          (fun p => p.1 == area)).map (fun p => p.2) =
      combineAgg ((m.find? (fun p => p.1 == area)).map (fun p => p.2))
        (areaContribs db F qs area) := by
  induction qs generalizing m with
  | nil => simp [areaContribs, combineAgg_nil]
  | cons q rest ih =>
    rw [List.foldl_cons]
    cases hv : adminQuestionVal db F q with
    | none =>
      rw [ih]
      have : areaContribs db F (q :: rest) area =
          areaContribs db F rest area := by
        simp [areaContribs, List.filterMap_cons, hv]
      rw [this]
    | some v =>
      by_cases ha : q.area = area
      · rw [ih, find?_areaAggUpdate, if_pos ha.symm]
        have hcontribs : areaContribs db F (q :: rest) area =
            v :: areaContribs db F rest area := by
          simp [areaContribs, List.filterMap_cons, hv, ha]
        rw [hcontribs]
        cases hm : (m.find? (fun p => p.1 == area)).map (fun p => p.2) with
        | none =>
          simp [combineAgg, add_comm]
        | some sn =>
          obtain ⟨s, n⟩ := sn
          simp only [combineAgg, List.sum_cons, List.length_cons,
            Prod.mk.injEq]
          exact congrArg some (by
            simp only [Prod.mk.injEq]
            exact ⟨by ring, by omega⟩)
      · rw [ih, find?_areaAggUpdate, if_neg (fun h => ha h.symm)]
        have : areaContribs db F (q :: rest) area =
            areaContribs db F rest area := by
          simp [areaContribs, List.filterMap_cons, ha]
        rw [this]

/-- C2 amended: *for the admin stats page* the per-area average equals
the unweighted arithmetic mean of the (2-decimal-rounded) per-question
averages of the questions in that area, each question contributing
equally regardless of its answer count.  (The dashboard API instead
returns the pooled raw mean — see the counterexample.) -/
theorem c2_admin_area_avg_is_unweighted_mean (db : Db) (F : Filters)
    (area : String) :
    adminAreaAvg db F area = areaMeanOfQuestionAvgs db F area := by
  have h := foldl_adminAreaAgg db F db.questions [] area
  rw [show ((([] : List (String × ℚ × Nat)).find?
      (fun p => p.1 == area)).map (fun p => p.2)) = none from rfl] at h
  unfold adminAreaAvg adminAreaAgg areaMeanOfQuestionAvgs
  cases hf : (db.questions.foldl (fun m q =>
      match adminQuestionVal db F q with
      | none => m
      | some v => areaAggUpdate m q.area v) []).find?
        (fun p => p.1 == area) with
  | none =>
    rw [hf] at h
    simp only [Option.map_none'] at h ⊢
    unfold combineAgg at h
    by_cases hlen : (areaContribs db F db.questions area).length = 0
    · rw [if_pos hlen]
    · rw [if_neg hlen] at h
      exact absurd h (by simp)
  | some p =>
    rw [hf] at h
    simp only [Option.map_some'] at h ⊢
    unfold combineAgg at h
    by_cases hlen : (areaContribs db F db.questions area).length = 0
    · rw [if_pos hlen] at h
      exact absurd h (by simp)
    · rw [if_neg hlen] at h
      have hp2 := Option.some.inj h
      rw [if_neg hlen, hp2]
/-- C3 counterexample: in `db3` the sole response's teaching has a NULL
school year.  With every filter unset the claim says the result set
includes every response row, whatever value (including NULL) the
dimensions have — but the COALESCE trick excludes the row, so the
aggregation sees 0 of the 1 responses. -/
theorem c3_counterexample_null_school_year_row_dropped :
    db3.responses.length = 1 ∧
    db3.teachings.map Teaching.school_year_id = [none] ∧
    matchingResponseCount db3 Filters.unset = 0 := by decide

/-- C3 amended: an unset filter is always-true for the four NOT NULL
dimensions (course, semester, discipline, teacher), but for the nullable
dimensions (school year, class group) an unset filter matches exactly the
rows whose value is non-NULL: `COALESCE(NULL, col) = col` is SQL-NULL
when `col` is NULL, so such rows are excluded from every aggregation
result even with all filters unset. -/
theorem c3_unset_filter_matches_exactly_nonnull :
    (∀ c : Nat, sqlCoalesceEqNN none c = true) ∧
    (∀ col : Option Nat, sqlCoalesceEq none col = col.isSome) ∧
    (∀ (db : Db) (r : Response) (t : Teaching) (d : Discipline),
      findTeaching db r.teaching_id = some t →
      findDiscipline db t.discipline_id = some d →
      rowMatches db Filters.unset r =
        (t.school_year_id.isSome && t.class_group_id.isSome)) := by
  refine ⟨fun c => rfl, fun col => by cases col <;> rfl, ?_⟩
  intro db r t d ht hd
  cases t with
  | mk tid teid did sid sy cg =>
    simp only [rowMatches, ht, hd]
    cases sy <;> cases cg <;>
      simp [Filters.unset, sqlCoalesceEqNN, sqlCoalesceEq]

/-- Witness for C3's amended theorem: in `db1` the teaching row has both
nullable dimensions populated, and the unset-filter query matches it. -/
theorem c3_unset_filter_witness :
    rowMatches db1 Filters.unset { id := 1, teaching_id := 1, comment := none } = true := by
  have h := c3_unset_filter_matches_exactly_nonnull.2.2 db1
    { id := 1, teaching_id := 1, comment := none }
    { id := 1, teacher_id := 1, discipline_id := 1, semester_id := 1,
      school_year_id := some 1, class_group_id := some 1 }
    { id := 1, course_id := 1 } (by decide) (by decide)
  simpa using h

/-- C4: the submit route's teaching lookup-or-create is idempotent —
starting from a store with at most one row for the tuple (the uniqueness
invariant), running the lookup-or-create twice with the identical tuple
(two submissions) never leaves two teaching rows with that tuple. -/
theorem c4_lookup_or_create_no_duplicate_tuple (ts : List Teaching)
    (tu : TTuple) (h : countTuple ts tu ≤ 1) :
    countTuple (lookupOrCreateTeaching
      (lookupOrCreateTeaching ts tu).2 tu).2 tu ≤ 1 := by
  cases hf : ts.find? (teachingHasTuple tu) with
  | some t =>
    simpa [lookupOrCreateTeaching, hf] using h
  | none =>
    have hall := List.find?_eq_none.mp hf
    have hnil : ts.filter (teachingHasTuple tu) = [] :=
      List.filter_eq_nil_iff.mpr hall
    have hrow : teachingHasTuple tu (newTeaching ts tu) = true := by
      simp [teachingHasTuple, newTeaching]
    have h1 : (lookupOrCreateTeaching ts tu).2 = ts ++ [newTeaching ts tu] := by
      simp [lookupOrCreateTeaching, hf]
    rw [h1]
    cases hfs : (ts ++ [newTeaching ts tu]).find? (teachingHasTuple tu) with
    | none =>
      exact absurd hrow
        (by simpa using List.find?_eq_none.mp hfs _ (by simp))
    | some t' =>
      simp [lookupOrCreateTeaching, hfs, countTuple, List.filter_append,
        hnil, hrow]

/-- Witness for C4: two identical lookup-or-creates from the empty store
leave at most one row for the tuple. -/
theorem c4_witness :
    countTuple (lookupOrCreateTeaching
      (lookupOrCreateTeaching []
        { teacher_id := 7, discipline_id := 3, semester_id := 2,
          school_year_id := none, class_group_id := none }).2
      { teacher_id := 7, discipline_id := 3, semester_id := 2,
        school_year_id := none, class_group_id := none }).2
      { teacher_id := 7, discipline_id := 3, semester_id := 2,
        school_year_id := none, class_group_id := none } ≤ 1 :=
  c4_lookup_or_create_no_duplicate_tuple [] _ (by decide)

/-- C6: a submission missing any of the required dimensional fields
(course, semester, discipline, teacher) is answered with HTTP 400 and
nothing is written (the route returns before any insert, which the
`none` result models: no successor database state exists). -/
theorem c6_missing_required_field_rejected (db : Db) (b : SubmitBody)
    (h : b.course_id = none ∨ b.semester_id = none ∨
         b.discipline_id = none ∨ b.teacher_id = none) :
    submit db b = none := by
  unfold submit
  split
  · rcases h with h | h | h | h <;> simp_all
  · rfl

/-- Witness for C6: a submission with the teacher missing is rejected. -/
theorem c6_witness :
    submit db1 { course_id := some 1, semester_id := some 1,
                 school_year_id := some 1, discipline_id := some 1,
                 teacher_id := none, class_group_id := none,
                 comment := none, answers := [(1, 2)] } = none :=
  c6_missing_required_field_rejected db1 _ (Or.inr (Or.inr (Or.inr rfl)))

/-- C8 counterexample: a bulk-import request with no admin session (no
cookies at all) is *redirected to the login page* by `requireAuth`, not
answered 403 as the claim states. -/
theorem c8_counterexample_no_session_redirects_not_403 :
    importRoute { ispt_admin := none, role := none } =
      RouteResult.redirectLogin ∧
    RouteResult.redirectLogin ≠ RouteResult.forbidden := by decide

/-- C8 amended: admin routes accessed without the session cookie redirect
to the login page (that part of the claim holds); but an unprivileged
bulk-import request is also redirected, never answered 403 — the route's
internal 403 branch is unreachable because `requireAuth` already
guarantees `ispt_admin === '1'`. -/
theorem c8_import_redirects_never_403 (c : Cookies) :
    (requireAuthOk c = false → importRoute c = RouteResult.redirectLogin) ∧
    importRoute c ≠ RouteResult.forbidden := by
  unfold importRoute requireAuthOk
  cases h1 : (c.ispt_admin == some "1") <;> simp [h1]

/-- Witness for C8's amended theorem, at the concrete cookie-less
request. -/
theorem c8_witness :
    importRoute { ispt_admin := none, role := none } =
      RouteResult.redirectLogin ∧
    importRoute { ispt_admin := some "1", role := none } ≠
      RouteResult.forbidden :=
  ⟨(c8_import_redirects_never_403 _).1 (by decide),
   (c8_import_redirects_never_403 _).2⟩

/-- A submission with the four required fields present succeeds, with the
spelled-out result state. -/
theorem submit_eq_some (db : Db) (b : SubmitBody) (cid sid did tid : Nat)
    (hc : b.course_id = some cid) (hs : b.semester_id = some sid)
    (hd : b.discipline_id = some did) (ht : b.teacher_id = some tid) :
    submit db b = some (applySubmit db b sid did tid) := by
  unfold submit
  rw [hc, hs, hd, ht]

/-- The lookup-or-create's returned id always denotes a row of the
resulting store that carries the requested tuple. -/
theorem lookupOrCreate_mem_tuple (ts : List Teaching) (tu : TTuple) :
    ∃ t ∈ (lookupOrCreateTeaching ts tu).2,
      t.id = (lookupOrCreateTeaching ts tu).1 ∧
      teachingHasTuple tu t = true := by
  cases hf : ts.find? (teachingHasTuple tu) with
  | some t =>
    exact ⟨t, by simp [lookupOrCreateTeaching, hf,
        List.mem_of_find?_eq_some hf],
      by simp [lookupOrCreateTeaching, hf], List.find?_some hf⟩
  | none =>
    exact ⟨newTeaching ts tu, by simp [lookupOrCreateTeaching, hf],
      by simp [lookupOrCreateTeaching, hf, newTeaching],
      by simp [teachingHasTuple, newTeaching]⟩

/-- A row carrying a tuple has that tuple's school year. -/
theorem teachingHasTuple_school_year (tu : TTuple) (t : Teaching)
    (h : teachingHasTuple tu t = true) :
    t.school_year_id = tu.school_year_id := by
  simp only [teachingHasTuple, Bool.and_eq_true, beq_iff_eq] at h
  exact h.1.2

/-- C10: a submission with course, semester, discipline and teacher
present but no school year is accepted (not 400): the response row is
recorded against a teaching row whose school year is NULL. -/
theorem c10_no_school_year_accepted (db : Db) (b : SubmitBody)
    (cid sid did tid : Nat)
    (hc : b.course_id = some cid) (hs : b.semester_id = some sid)
    (hd : b.discipline_id = some did) (ht : b.teacher_id = some tid)
    (hy : b.school_year_id = none) :
    ∃ db', submit db b = some db' ∧
      db'.responses.length = db.responses.length + 1 ∧
      ∃ r ∈ db'.responses, r.id = freshResponseId db ∧
        ∃ t ∈ db'.teachings, t.id = r.teaching_id ∧
          t.school_year_id = none := by
  refine ⟨_, submit_eq_some db b cid sid did tid hc hs hd ht, ?_, ?_⟩
  · simp [applySubmit]
  refine ⟨newResponse db b ⟨tid, did, sid, b.school_year_id,
    b.class_group_id⟩, by simp [applySubmit], rfl, ?_⟩
  obtain ⟨t, htmem, htid, htu⟩ := lookupOrCreate_mem_tuple db.teachings
    ⟨tid, did, sid, b.school_year_id, b.class_group_id⟩
  exact ⟨t, by simpa [applySubmit] using htmem, htid,
    by rw [teachingHasTuple_school_year _ _ htu, hy]⟩

/-- Witness for C10, at a concrete submission without a school year. -/
theorem c10_witness :
    ∃ db', submit db1 bodyNoYear = some db' ∧
      db'.responses.length = db1.responses.length + 1 ∧
      ∃ r ∈ db'.responses, r.id = freshResponseId db1 ∧
        ∃ t ∈ db'.teachings, t.id = r.teaching_id ∧
          t.school_year_id = none :=
  c10_no_school_year_accepted db1 bodyNoYear 1 1 1 1 rfl rfl rfl rfl rfl
/-- An answer row the route builds always carries the new response id and
the id of the question it was built for. -/
theorem mkAnswer_ids (rid : Nat) (ans : List (Nat × Int)) (q : Question)
    (a : Answer) (h : mkAnswer rid ans q = some a) :
    a.response_id = rid ∧ a.question_id = q.id := by
  unfold mkAnswer at h
  split at h
  · split at h
    · cases h
      exact ⟨rfl, rfl⟩
    · cases h
  · cases h

/-- No answer row is built exactly when the submitted value is missing or
out of range. -/
theorem mkAnswer_eq_none_iff (rid : Nat) (ans : List (Nat × Int))
    (q : Question) :
    mkAnswer rid ans q = none ↔
      (lookupAnswerVal ans q.id).any validValue = false := by
  unfold mkAnswer
  cases lookupAnswerVal ans q.id with
  | none => simp [Option.any]
  | some v =>
    by_cases hv : validValue v = true <;> simp [Option.any, hv]

/-- Questions with other ids contribute no row matching a given id. -/
theorem filterMap_mkAnswer_other_ids (rid : Nat) (ans : List (Nat × Int))
    (qs : List Question) (qid : Nat) (h : qid ∉ qs.map Question.id) :
    (qs.filterMap (mkAnswer rid ans)).filter
      (fun a => a.question_id == qid) = [] := by
  induction qs with
  | nil => rfl
  | cons q rest ih =>
    have hne : q.id ≠ qid := fun he => h (by simp [he])
    have hrest : qid ∉ rest.map Question.id := fun hm => h (by simp [hm])
    rw [List.filterMap_cons]
    cases hm : mkAnswer rid ans q with
    | none => exact ih hrest
    | some a =>
      have hqid := (mkAnswer_ids rid ans q a hm).2
      rw [List.filter_cons]
      simp only [hqid]
      simp [hne, ih hrest]

/-- Among the rows built for a duplicate-free question list, a member
question gets exactly one row when its value is valid, none otherwise. -/
theorem count_mkAnswer (rid : Nat) (ans : List (Nat × Int))
    (qs : List Question) (q : Question) (hq : q ∈ qs)
    (hnd : (qs.map Question.id).Nodup) :
    ((qs.filterMap (mkAnswer rid ans)).filter
      (fun a => a.question_id == q.id)).length =
      if (lookupAnswerVal ans q.id).any validValue then 1 else 0 := by
  induction qs with
  | nil => cases hq
  | cons q' rest ih =>
    have hnd' : q'.id ∉ rest.map Question.id ∧
        (rest.map Question.id).Nodup := by
      rw [List.map_cons, List.nodup_cons] at hnd
      exact hnd
    rcases List.mem_cons.mp hq with rfl | hmem
    · have hnotin : q.id ∉ rest.map Question.id := hnd'.1
      rw [List.filterMap_cons]
      cases hm : mkAnswer rid ans q with
      | none =>
        have hnone := (mkAnswer_eq_none_iff rid ans q).mp hm
        rw [filterMap_mkAnswer_other_ids rid ans rest q.id hnotin, hnone]
        rfl
      | some a =>
        have hqid := (mkAnswer_ids rid ans q a hm).2
        have hany : (lookupAnswerVal ans q.id).any validValue = true := by
          rcases hb : (lookupAnswerVal ans q.id).any validValue with _ | _
          · exact absurd hm (by simp [(mkAnswer_eq_none_iff rid ans q).mpr hb])
          · rfl
        rw [List.filter_cons]
        simp [hqid, filterMap_mkAnswer_other_ids rid ans rest q.id hnotin,
          hany]
    · have hne : q'.id ≠ q.id := fun he =>
        hnd'.1 (he ▸ List.mem_map.mpr ⟨q, hmem, rfl⟩)
      rw [List.filterMap_cons]
      cases hm : mkAnswer rid ans q' with
      | none => exact ih hmem hnd'.2
      | some a =>
        have hqid := (mkAnswer_ids rid ans q' a hm).2
        rw [List.filter_cons]
        simp only [hqid]
        simp [hne, ih hmem hnd'.2]

/-- C5: a submission with the required fields present creates exactly one
`survey_response` row, and exactly one `survey_answer` row per question
whose submitted value is in {0,1,2}; missing/out-of-range answers are
silently skipped (no row), and the pre-existing answer rows are
untouched. -/
theorem c5_one_response_one_answer_per_valid_value (db : Db)
    (b : SubmitBody) (cid sid did tid : Nat)
    (hc : b.course_id = some cid) (hs : b.semester_id = some sid)
    (hd : b.discipline_id = some did) (ht : b.teacher_id = some tid)
    (hnd : (db.questions.map Question.id).Nodup)
    (hfresh : ∀ a ∈ db.answers, a.response_id ≠ freshResponseId db) :
    ∃ db', submit db b = some db' ∧
      db'.responses.length = db.responses.length + 1 ∧
      (∀ q ∈ db.questions,
        ((db'.answers.filter (fun a =>
            a.response_id == freshResponseId db &&
            a.question_id == q.id)).length =
          if (lookupAnswerVal b.answers q.id).any validValue then 1
          else 0)) ∧
      db'.answers.filter
        (fun a => !(a.response_id == freshResponseId db)) = db.answers := by
  refine ⟨_, submit_eq_some db b cid sid did tid hc hs hd ht,
    by simp [applySubmit], ?_, ?_⟩
  · intro q hq
    show (((db.answers ++ db.questions.filterMap
        (mkAnswer (freshResponseId db) b.answers)).filter
        (fun a => a.response_id == freshResponseId db &&
          a.question_id == q.id)).length) = _
    rw [List.filter_append]
    have h1 : db.answers.filter (fun a =>
        a.response_id == freshResponseId db &&
        a.question_id == q.id) = [] := by
      refine List.filter_eq_nil_iff.mpr (fun a ha => ?_)
      simp [hfresh a ha]
    have h2 : (db.questions.filterMap
        (mkAnswer (freshResponseId db) b.answers)).filter
        (fun a => a.response_id == freshResponseId db &&
          a.question_id == q.id) =
        (db.questions.filterMap
          (mkAnswer (freshResponseId db) b.answers)).filter
        (fun a => a.question_id == q.id) := by
      refine List.filter_congr (fun a ha => ?_)
      obtain ⟨q', hq', hmk⟩ := List.mem_filterMap.mp ha
      simp [(mkAnswer_ids _ _ _ _ hmk).1]
    rw [h1, h2, List.nil_append, count_mkAnswer (freshResponseId db)
      b.answers db.questions q hq hnd]
  · show ((db.answers ++ db.questions.filterMap
        (mkAnswer (freshResponseId db) b.answers)).filter
        (fun a => !(a.response_id == freshResponseId db))) = _
    rw [List.filter_append]
    have h1 : db.answers.filter
        (fun a => !(a.response_id == freshResponseId db)) = db.answers :=
      List.filter_eq_self.mpr (fun a ha => by simp [hfresh a ha])
    have h2 : (db.questions.filterMap
        (mkAnswer (freshResponseId db) b.answers)).filter
        (fun a => !(a.response_id == freshResponseId db)) = [] := by
      refine List.filter_eq_nil_iff.mpr (fun a ha => ?_)
      obtain ⟨q', hq', hmk⟩ := List.mem_filterMap.mp ha
      simp [(mkAnswer_ids _ _ _ _ hmk).1]
    rw [h1, h2, List.append_nil]

/-- Witness for C5 at `dbTwoQ`/`bodyTwoQ`: Q1's valid answer yields one
row, Q2's out-of-range answer yields none, and the submission succeeds. -/
theorem c5_witness :
    ∃ db', submit dbTwoQ bodyTwoQ = some db' ∧
      db'.responses.length = dbTwoQ.responses.length + 1 ∧
      (∀ q ∈ dbTwoQ.questions,
        ((db'.answers.filter (fun a =>
            a.response_id == freshResponseId dbTwoQ &&
            a.question_id == q.id)).length =
          if (lookupAnswerVal bodyTwoQ.answers q.id).any validValue then 1
          else 0)) ∧
      db'.answers.filter
        (fun a => !(a.response_id == freshResponseId dbTwoQ)) =
        dbTwoQ.answers :=
  c5_one_response_one_answer_per_valid_value dbTwoQ bodyTwoQ 1 1 1 1
    rfl rfl rfl rfl (by decide) (by decide)

/-- When some item reaches the strength threshold, `strengths` is exactly
the set of items with mean ≥ 1.5. -/
theorem mem_strengths_iff (items : List TrendItem)
    (h : ∃ j ∈ items, (3/2 : ℚ) ≤ j.avg) (i : TrendItem) :
    i ∈ strengths items ↔ i ∈ items ∧ (3/2 : ℚ) ≤ i.avg := by
  unfold strengths
  obtain ⟨j, hj, hjle⟩ := h
  have hjmem : j ∈ (trendsDesc items).filter
      (fun i => (3/2 : ℚ) ≤ i.avg) :=
    List.mem_filter.mpr ⟨by simpa [trendsDesc] using hj, by simpa⟩
  have hne : ((trendsDesc items).filter
      (fun i => (3/2 : ℚ) ≤ i.avg)).isEmpty = false :=
    List.isEmpty_eq_false.mpr (List.ne_nil_of_mem hjmem)
  rw [hne]
  simp [List.mem_filter, trendsDesc]

/-- When no item reaches the strength threshold, `strengths` falls back
to the first three of the descending sort. -/
theorem strengths_fallback (items : List TrendItem)
    (h : ∀ i ∈ items, i.avg < 3/2) :
    strengths items = (trendsDesc items).take 3 := by
  unfold strengths
  have hnil : (trendsDesc items).filter
      (fun i => (3/2 : ℚ) ≤ i.avg) = [] := by
    refine List.filter_eq_nil_iff.mpr (fun a ha => ?_)
    have ha' : a ∈ items := by simpa [trendsDesc] using ha
    simpa using not_le.mpr (h a ha')
  rw [hnil]
  rfl

/-- When some item falls below the weakness threshold, `weaknesses` is
exactly the set of items with mean < 1.0. -/
theorem mem_weaknesses_iff (items : List TrendItem)
    (h : ∃ j ∈ items, j.avg < 1) (i : TrendItem) :
    i ∈ weaknesses items ↔ i ∈ items ∧ i.avg < 1 := by
  unfold weaknesses
  obtain ⟨j, hj, hjlt⟩ := h
  have hjmem : j ∈ (trendsAsc items).filter (fun i => i.avg < 1) :=
    List.mem_filter.mpr ⟨by simpa [trendsAsc] using hj, by simpa⟩
  have hne : ((trendsAsc items).filter
      (fun i => i.avg < 1)).isEmpty = false :=
    List.isEmpty_eq_false.mpr (List.ne_nil_of_mem hjmem)
  rw [hne]
  simp [List.mem_filter, trendsAsc]

/-- When no item falls below the weakness threshold, `weaknesses` falls
back to the first three of the ascending sort. -/
theorem weaknesses_fallback (items : List TrendItem)
    (h : ∀ i ∈ items, 1 ≤ i.avg) :
    weaknesses items = (trendsAsc items).take 3 := by
  unfold weaknesses
  have hnil : (trendsAsc items).filter (fun i => i.avg < 1) = [] := by
    refine List.filter_eq_nil_iff.mpr (fun a ha => ?_)
    have ha' : a ∈ items := by simpa [trendsAsc] using ha
    simpa using not_lt.mpr (h a ha')
  rw [hnil]
  rfl

/-- The descending sort is a permutation of `items`, sorted by
non-increasing mean. -/
theorem trendsDesc_sorted (items : List TrendItem) :
    (trendsDesc items).Perm items ∧
    (trendsDesc items).Pairwise (fun a b => b.avg ≤ a.avg) := by
  refine ⟨List.mergeSort_perm items _, ?_⟩
  have h := @List.sorted_mergeSort TrendItem
    (fun a b => decide (b.avg ≤ a.avg))
    (fun a b c hab hbc => by
      simp only [decide_eq_true_eq] at *
      exact le_trans hbc hab)
    (fun a b => by simpa using le_total b.avg a.avg) items
  exact h.imp (fun hab => by simpa using hab)

/-- The ascending sort is a permutation of `items`, sorted by
non-decreasing mean. -/
theorem trendsAsc_sorted (items : List TrendItem) :
    (trendsAsc items).Perm items ∧
    (trendsAsc items).Pairwise (fun a b => a.avg ≤ b.avg) := by
  refine ⟨List.mergeSort_perm items _, ?_⟩
  have h := @List.sorted_mergeSort TrendItem
    (fun a b => decide (a.avg ≤ b.avg))
    (fun a b c hab hbc => by
      simp only [decide_eq_true_eq] at *
      exact le_trans hab hbc)
    (fun a b => by simpa using le_total a.avg b.avg) items
  exact h.imp (fun hab => by simpa using hab)

/-- C7: in the PDF trends section, over the questions that have at least
one matching answer (`pdfItems`), a question is listed as a strength
exactly when its mean is ≥ 1.5 and as a weakness exactly when its mean
is < 1.0; when no question reaches (resp. falls below) the threshold the
top (resp. bottom) 3 by mean are listed instead — the first three of a
sorted permutation of the items. -/
theorem c7_trends_strengths_weaknesses (db : Db) (F : Filters) :
    ((∃ j ∈ pdfItems db F, (3/2 : ℚ) ≤ j.avg) →
      ∀ i, (i ∈ strengths (pdfItems db F) ↔
        i ∈ pdfItems db F ∧ (3/2 : ℚ) ≤ i.avg)) ∧
    ((∀ i ∈ pdfItems db F, i.avg < 3/2) →
      strengths (pdfItems db F) = (trendsDesc (pdfItems db F)).take 3 ∧
      (trendsDesc (pdfItems db F)).Perm (pdfItems db F) ∧
      (trendsDesc (pdfItems db F)).Pairwise (fun a b => b.avg ≤ a.avg)) ∧
    ((∃ j ∈ pdfItems db F, j.avg < 1) →
      ∀ i, (i ∈ weaknesses (pdfItems db F) ↔
        i ∈ pdfItems db F ∧ i.avg < 1)) ∧
    ((∀ i ∈ pdfItems db F, 1 ≤ i.avg) →
      weaknesses (pdfItems db F) = (trendsAsc (pdfItems db F)).take 3 ∧
      (trendsAsc (pdfItems db F)).Perm (pdfItems db F) ∧
      (trendsAsc (pdfItems db F)).Pairwise (fun a b => a.avg ≤ b.avg)) :=
  ⟨fun h i => mem_strengths_iff (pdfItems db F) h i,
   fun h => ⟨strengths_fallback (pdfItems db F) h,
     (trendsDesc_sorted (pdfItems db F)).1,
     (trendsDesc_sorted (pdfItems db F)).2⟩,
   fun h i => mem_weaknesses_iff (pdfItems db F) h i,
   fun h => ⟨weaknesses_fallback (pdfItems db F) h,
     (trendsAsc_sorted (pdfItems db F)).1,
     (trendsAsc_sorted (pdfItems db F)).2⟩⟩

/-- Witness for C7: in `db1` the sole question's mean is 2 ≥ 1.5, so the
membership characterisation applies to it. -/
theorem c7_witness :
    ({ code := "Q1", avg := 2 } : TrendItem) ∈
      strengths (pdfItems db1 Filters.unset) ↔
    ({ code := "Q1", avg := 2 } : TrendItem) ∈ pdfItems db1 Filters.unset ∧
      (3/2 : ℚ) ≤ ({ code := "Q1", avg := 2 } : TrendItem).avg := by
  have hitems : pdfItems db1 Filters.unset = [{ code := "Q1", avg := 2 }] := by
    simp [pdfItems, questionAvg, matchingAnswers, findResponse, rowMatches,
      findTeaching, findDiscipline, sqlCoalesceEqNN, sqlCoalesceEq, db1,
      Filters.unset, List.filter, List.find?]
  exact (c7_trends_strengths_weaknesses db1 Filters.unset).1
    ⟨{ code := "Q1", avg := 2 }, by rw [hitems]; simp, by norm_num⟩
    { code := "Q1", avg := 2 }

end Avalia
